import Mathlib

/-!
Verification of the dataset-comparison core of `great_expectations_tutorial`
(`src/lib/great_expectations_validator.py`) against its specification.

The Python code is shallowly embedded: pandas dataframes become an explicit
column-oriented table type, the comparison methods become total Lean functions,
and code paths that raise Python exceptions (`KeyError` on a missing dict or
column key, `ValueError` on comparing differently-labelled series) return
`Except.error` values instead.
-/

set_option maxHeartbeats 1000000

deriving instance DecidableEq for Except

namespace GEV

/-- A named column of a tabular dataset: the column name together with its
cell values in row order. -/
structure Col (α : Type) where
  name : String
  vals : List α
deriving DecidableEq, Repr

/-- A pandas-style dataframe as used by `great_expectations_validator.py`:
a row count (`len(df)`) together with the ordered list of named columns. -/
structure DataFrame (α : Type) where
  nrows : Nat
  cols : List (Col α)
deriving DecidableEq, Repr

/-- Pandas `df.columns`: the ordered list of column names. -/
def DataFrame.columns {α : Type} (df : DataFrame α) : List String :=
  df.cols.map Col.name

/-- Pandas `df[c]`: the values of the (first) column named `c`, or `none`
when the lookup would raise a `KeyError`. -/
def DataFrame.getCol {α : Type} (df : DataFrame α) (c : String) : Option (List α) :=
  (df.cols.find? (fun col => col.name == c)).map Col.vals

/-- Python-level exceptions that the validator's comparison code can raise. -/
inductive PyError where
  | keyError (key : String)
  | valueError (msg : String)
deriving DecidableEq, Repr

/-- Per-column difference report built by `compare_row_values_between_datasets`
(lines 227-231 of the source): the primary-key values of the differing rows and
the source/target values at those rows, all in source row order. -/
structure RowDiff (α : Type) where
  row_indices : List α
  source_data_values : List α
  target_data_values : List α
deriving DecidableEq, Repr

/-- Structured `detailed_errors` payloads, one shape per failing check. -/
inductive DetailedErrors (α : Type) where
  | schema (missing_in_target_data missing_in_source_data : List String)
  | rowCount (source_data_row_count target_data_row_count : Nat)
  | pkDuplicates (duplicate_keys_in_source duplicate_keys_in_target : List α)
  | rowValues (errs : List (String × RowDiff α))
deriving DecidableEq, Repr

/-- One Check Result: the `success` flag and the optional `detailed_errors`
payload, exactly the dict shape the Python code builds. -/
structure CheckResult (α : Type) where
  success : Bool
  detailed_errors : Option (DetailedErrors α) := none
deriving DecidableEq, Repr

/-- A results mapping from check name to Check Result (a Python dict,
modelled as an insertion-ordered association list). -/
abbrev Results (α : Type) := List (String × CheckResult α)

/-- The duplicated primary-key values of one dataset, lines 162-163 and
168-169: `df[df.duplicated(subset=[pk], keep=False)][pk].tolist()` marks every
row whose key value occurs at least twice, so the result is the key column
filtered to the values of multiplicity at least two, in original row order. -/
def duplicateKeys {α : Type} [DecidableEq α] (keys : List α) : List α :=
  keys.filter (fun k => 2 ≤ keys.count k)

/-- Set difference `set(a) - set(b)` of lines 175-179, as the deduplicated
list of elements of `a` not occurring in `b`. -/
def missingKeys {α : Type} [DecidableEq α] (a b : List α) : List α :=
  a.dedup.filter (fun k => k ∉ b)

/-- Shallow embedding of `compare_primary_keys_between_datasets`
(src/lib/great_expectations_validator.py, lines 142-193).

Python semantics are preserved faithfully, including the defect on the
both-sides-missing branch: after `results` has been rebuilt as
`{"custom_expect_primary_keys_to_match": {"success": True}}` (lines 181-185),
line 187 executes `results["custom_expect_row_values_to_match"]["detailed_errors"] = {}`,
which raises `KeyError("custom_expect_row_values_to_match")` because that key is
absent, so the function never returns on that branch.

`df.duplicated(subset=[pk], keep=False)` marks every row whose key value occurs
at least twice, so `source_duplicates[pk].tolist()` is the key column filtered
to values of multiplicity at least two, in original row order. -/
def compare_primary_keys_between_datasets {α : Type} [DecidableEq α]
    (source_data target_data : DataFrame α) (primary_key : String) :
    Except PyError (Results α) :=
  match source_data.getCol primary_key, target_data.getCol primary_key with
  | none, _ => .error (.keyError primary_key)
  | some _, none => .error (.keyError primary_key)
  | some source_keys, some target_keys =>
    if duplicateKeys source_keys ≠ [] ∨ duplicateKeys target_keys ≠ [] then
      .ok [("custom_expect_primary_keys_to_match",
            ⟨false, some (.pkDuplicates (duplicateKeys source_keys)
                                        (duplicateKeys target_keys))⟩)]
    else
      if missingKeys source_keys target_keys ≠ [] ∧
          missingKeys target_keys source_keys ≠ [] then
        .error (.keyError "custom_expect_row_values_to_match")
      else
        .ok [("custom_expect_primary_keys_to_match", ⟨true, none⟩)]

/-- Pandas `df.set_index(primary_key, inplace=False)`: the primary-key column's
values become the row index and the column itself is removed from the column
list; a missing column raises `KeyError`. -/
def set_index {α : Type} (df : DataFrame α) (primary_key : String) :
    Except PyError (List α × List (Col α)) :=
  match df.getCol primary_key with
  | none => .error (.keyError primary_key)
  | some keys => .ok (keys, df.cols.filter (fun c => c.name ≠ primary_key))

/-- The per-column diff record of lines 227-231: for the rows where source and
target values differ, the index (primary-key) values, the source values and the
target values, in row order. -/
def colDiff {α : Type} [DecidableEq α] (keys svals tvals : List α) : RowDiff α :=
  let triples := (keys.zip (svals.zip tvals)).filter (fun p => p.2.1 ≠ p.2.2)
  ⟨triples.map Prod.fst, triples.map (fun p => p.2.1), triples.map (fun p => p.2.2)⟩

/-- The column loop of `compare_row_values_between_datasets` (lines 221-231),
threading the `success` flag and the current `detailed_errors` dict.

Python semantics preserved faithfully:
* `source_data[column] != target_data[column]` raises
  `ValueError("Can only compare identically-labeled Series objects")` whenever
  the two row indexes are not elementwise identical (pandas does not align on
  comparison), and
* on each differing column `detailed_errors` is first reset to `{}` (line 225)
  and then given that single column's entry, so only the last differing column
  survives in the final payload. -/
def rvLoop {α : Type} [DecidableEq α] (target_cols : List (Col α))
    (source_index target_index : List α) :
    List (Col α) → Bool → Option (String × RowDiff α) →
    Except PyError (Bool × Option (String × RowDiff α))
  | [], succ, de => .ok (succ, de)
  | c :: rest, succ, de =>
    match target_cols.find? (fun tc => tc.name == c.name) with
    | none => rvLoop target_cols source_index target_index rest succ de
    | some tc =>
      if source_index = target_index then
        if (c.vals.zip tc.vals).any (fun p => decide (p.1 ≠ p.2)) then
          rvLoop target_cols source_index target_index rest false
            (some (c.name, colDiff source_index c.vals tc.vals))
        else
          rvLoop target_cols source_index target_index rest succ de
      else
        .error (.valueError "Can only compare identically-labeled Series objects")

/-- Shallow embedding of `compare_row_values_between_datasets`
(src/lib/great_expectations_validator.py, lines 195-233): align both datasets by
the primary key via `set_index`, then walk the source columns, comparing each
column also present in the target. -/
def compare_row_values_between_datasets {α : Type} [DecidableEq α]
    (source_data target_data : DataFrame α) (primary_key : String) :
    Except PyError (Results α) :=
  match set_index source_data primary_key with
  | .error e => .error e
  | .ok (source_index, source_cols) =>
    match set_index target_data primary_key with
    | .error e => .error e
    | .ok (target_index, target_cols) =>
      match rvLoop target_cols source_index target_index source_cols true none with
      | .error e => .error e
      | .ok (succ, de) =>
        .ok [("custom_expect_row_values_to_match",
              ⟨succ, de.map (fun p => .rowValues [p])⟩)]

/-- Specification-side definition, following the words of section 4.4 of the
spec: one diff record for every column present in both datasets (identified,
like the code, by first-match lookup in the target) whose values differ in at
least one aligned row, in source column order. The spec's payload records all
of these; the code's payload keeps only the last one. -/
def differingSharedCols {α : Type} [DecidableEq α] (keys : List α)
    (target_cols : List (Col α)) : List (Col α) → List (String × RowDiff α)
  | [] => []
  | c :: rest =>
    match target_cols.find? (fun tc => tc.name == c.name) with
    | none => differingSharedCols keys target_cols rest
    | some tc =>
      if (c.vals.zip tc.vals).any (fun p => decide (p.1 ≠ p.2)) then
        (c.name, colDiff keys c.vals tc.vals) ::
          differingSharedCols keys target_cols rest
      else differingSharedCols keys target_cols rest

/-- A value of the combined results dict built by
`apply_custom_expectations_to_datasets`: either a Check Result, or — for the
`custom_expect_row_values_to_match` key — the whole nested results dict returned
by `compare_row_values_between_datasets` (line 138 stores the full dict, not the
inner Check Result). -/
inductive ResultVal (α : Type) where
  | check (r : CheckResult α)
  | nested (m : Results α)
deriving DecidableEq, Repr

/-- Shallow embedding of `apply_custom_expectations_to_datasets`
(src/lib/great_expectations_validator.py, lines 108-140): run the primary-key
comparison, return its results directly if it failed, otherwise also run the
row-value comparison and store its whole returned dict under the
`custom_expect_row_values_to_match` key. -/
def apply_custom_expectations_to_datasets {α : Type} [DecidableEq α]
    (source_data target_data : DataFrame α) (primary_key : String) :
    Except PyError (List (String × ResultVal α)) :=
  match compare_primary_keys_between_datasets source_data target_data primary_key with
  | .error e => .error e
  | .ok primary_key_results =>
    let results : List (String × ResultVal α) :=
      primary_key_results.map (fun p => (p.1, .check p.2))
    match primary_key_results.lookup "custom_expect_primary_keys_to_match" with
    | none => .error (.keyError "custom_expect_primary_keys_to_match")
    | some pk_result =>
      if pk_result.success then
        match compare_row_values_between_datasets source_data target_data primary_key with
        | .error e => .error e
        | .ok row_comparison_results =>
          .ok (results ++
            [("custom_expect_row_values_to_match", .nested row_comparison_results)])
      else
        .ok results

/-- A kwargs value of a Check Descriptor: the `"source"` sentinel is a plain
string, substituted values are a column list (schema check) or a row count
(row-count check); `other` stands for any further Python value. -/
inductive KwargVal where
  | str (s : String)
  | nat (n : Nat)
  | strList (l : List String)
  | other
deriving DecidableEq, Repr

/-- A Check Descriptor as consumed by `apply_standard_expectations_to_datasets`:
`{"expectation_type": ..., "kwargs": {...}}`. A descriptor with no `kwargs` key
is modelled with an empty kwargs dict, which behaves identically (line 70 reads
`expectation.get("kwargs", {})`). -/
structure Expectation where
  expectation_type : String
  kwargs : List (String × KwargVal)
deriving DecidableEq, Repr

/-- The gx validator handed to `apply_standard_expectations_to_datasets`,
reduced to the one piece of state the function reads:
`validator.active_batch.data.dataframe`, the source dataset. -/
structure Validator (α : Type) where
  dataframe : DataFrame α
deriving DecidableEq, Repr

/-- The supported standard expectations (lines 15-18). -/
def supported_standard_expectations : List String :=
  ["expect_table_columns_to_match_ordered_list", "expect_table_row_count_to_equal"]

/-- Python `s.startswith(p)`. -/
def strStartsWith (s p : String) : Bool :=
  p.data.isPrefixOf s.data

/-- Python dict assignment `m[k] = v`: replace the value at the (first)
occurrence of the key, keeping its position, or append the entry when the key
is absent. Python dict keys are unique, so first-occurrence replacement is
exact. -/
def dictSet {β : Type} : List (String × β) → String → β → List (String × β)
  | [], k, v => [(k, v)]
  | p :: rest, k, v =>
    if p.1 = k then (k, v) :: rest else p :: dictSet rest k v

/-- The sentinel substitution of lines 72-77: for the schema check a
`column_list` equal to `"source"` becomes the target's column list, for the
row-count check a `value` equal to `"source"` becomes the target's row count.
In Python this mutates the descriptor's own kwargs dict in place; the mutation
is modelled by returning the updated kwargs. -/
def substituteKwargs {α : Type} (expectation_type : String)
    (kwargs : List (String × KwargVal)) (target_data : DataFrame α) :
    List (String × KwargVal) :=
  let k1 :=
    if expectation_type = "expect_table_columns_to_match_ordered_list" ∧
        kwargs.lookup "column_list" = some (.str "source") then
      dictSet kwargs "column_list" (.strList target_data.columns)
    else kwargs
  if expectation_type = "expect_table_row_count_to_equal" ∧
      k1.lookup "value" = some (.str "source") then
    dictSet k1 "value" (.nat target_data.nrows)
  else k1

/-- Modelled from the spec: the success flag of the external
`great_expectations` checks called on line 80 via
`getattr(validator, expectation_type)(**kwargs)`. These checks live in the
third-party `great_expectations` library, not in this repository; per the spec
(sections 4.1 and 4.2) the schema check succeeds exactly when the source's
column sequence equals `column_list` (order-sensitive) and the row-count check
exactly when the source's row count equals `value`. Kwargs of any other shape
are modelled as failure. -/
def gxExpectationSuccess {α : Type} (validator : Validator α)
    (expectation_type : String) (kwargs : List (String × KwargVal)) : Bool :=
  if expectation_type = "expect_table_columns_to_match_ordered_list" then
    match kwargs.lookup "column_list" with
    | some (.strList l) => decide (validator.dataframe.columns = l)
    | _ => false
  else if expectation_type = "expect_table_row_count_to_equal" then
    match kwargs.lookup "value" with
    | some (.nat n) => decide (validator.dataframe.nrows = n)
    | _ => false
  else false

/-- The Check Result built for one dispatched standard expectation
(lines 80-104): `{"success": True}` on success; on failure the symmetric
difference of the column name sets for the schema check (lines 85-94,
`list(set(expected) - set(actual))` and conversely) or the two raw row counts
for the row-count check (lines 95-102). The final `else` of line 103 is
unreachable because the caller only dispatches the two supported expectation
types, both handled above it. -/
def standardResultEntry {α : Type} [DecidableEq α] (validator : Validator α)
    (target_data : DataFrame α) (expectation_type : String)
    (kwargs : List (String × KwargVal)) : CheckResult α :=
  if gxExpectationSuccess validator expectation_type kwargs then
    ⟨true, none⟩
  else if expectation_type = "expect_table_columns_to_match_ordered_list" then
    let expected_columns := validator.dataframe.columns
    let actual_columns := target_data.columns
    ⟨false, some (.schema
        (expected_columns.dedup.filter (fun c => c ∉ actual_columns))
        (actual_columns.dedup.filter (fun c => c ∉ expected_columns)))⟩
  else if expectation_type = "expect_table_row_count_to_equal" then
    ⟨false, some (.rowCount validator.dataframe.nrows target_data.nrows)⟩
  else
    ⟨false, none⟩

/-- The descriptor loop of `apply_standard_expectations_to_datasets`
(lines 58-106): skip `custom_`-prefixed descriptors (line 62) and unsupported
expectation types (line 66) without producing an entry, otherwise substitute
sentinel kwargs, dispatch, and store the entry under the expectation type.
The second component of the result is the descriptor list as left behind by
the run, reflecting the in-place kwargs mutation of lines 75 and 77. -/
def stdLoop {α : Type} [DecidableEq α] (validator : Validator α)
    (target_data : DataFrame α) :
    List Expectation → Results α → Results α × List Expectation
  | [], results => (results, [])
  | e :: rest, results =>
    if strStartsWith e.expectation_type "custom_" then
      let step := stdLoop validator target_data rest results
      (step.1, e :: step.2)
    else if e.expectation_type ∉ supported_standard_expectations then
      let step := stdLoop validator target_data rest results
      (step.1, e :: step.2)
    else
      let kwargs2 := substituteKwargs e.expectation_type e.kwargs target_data
      let entry := standardResultEntry validator target_data e.expectation_type kwargs2
      let step := stdLoop validator target_data rest
        (dictSet results e.expectation_type entry)
      (step.1, ⟨e.expectation_type, kwargs2⟩ :: step.2)

/-- Shallow embedding of `apply_standard_expectations_to_datasets`
(src/lib/great_expectations_validator.py, lines 46-106). Returns the results
mapping together with the state of the (possibly mutated) descriptor list
after the run. -/
def apply_standard_expectations_to_datasets {α : Type} [DecidableEq α]
    (validator : Validator α) (expectations : List Expectation)
    (target_data : DataFrame α) : Results α × List Expectation :=
  stdLoop validator target_data expectations []

/-! ### Helper lemmas -/

/-- Every successful return of `compare_primary_keys_between_datasets` is a
singleton mapping of one of two shapes: a duplicate-keys failure or a plain
success. -/
theorem compare_pk_ok_cases {α : Type} [DecidableEq α] {s t : DataFrame α}
    {pk : String} {res : Results α}
    (h : compare_primary_keys_between_datasets s t pk = .ok res) :
    (∃ ds dt, res = [("custom_expect_primary_keys_to_match",
        ⟨false, some (.pkDuplicates ds dt)⟩)]) ∨
    res = [("custom_expect_primary_keys_to_match", ⟨true, none⟩)] := by
  unfold compare_primary_keys_between_datasets at h
  split at h
  · exact absurd h (by simp)
  · exact absurd h (by simp)
  · split at h
    · injection h with h
      exact Or.inl ⟨_, _, h.symm⟩
    · split at h
      · exact absurd h (by simp)
      · injection h with h
        exact Or.inr h.symm

/-- The row-value column loop preserves the detailed-errors/success linkage. -/
theorem rvLoop_inv {α : Type} [DecidableEq α] (target_cols : List (Col α))
    (si ti : List α) :
    ∀ (cols : List (Col α)) (succ : Bool) (de : Option (String × RowDiff α))
      (succ' : Bool) (de' : Option (String × RowDiff α)),
      (de.isSome ↔ succ = false) →
      rvLoop target_cols si ti cols succ de = .ok (succ', de') →
      (de'.isSome ↔ succ' = false) := by
  intro cols
  induction cols with
  | nil =>
    intro succ de succ' de' hinv h
    have h' : succ = succ' ∧ de = de' := by simpa [rvLoop] using h
    obtain ⟨rfl, rfl⟩ := h'
    exact hinv
  | cons c rest ih =>
    intro succ de succ' de' hinv h
    unfold rvLoop at h
    split at h
    · exact ih _ _ _ _ hinv h
    · split at h
      · split at h
        · exact ih _ _ _ _ (by simp) h
        · exact ih _ _ _ _ hinv h
      · exact absurd h (by simp)

/-- Every successful return of `compare_row_values_between_datasets` is a
singleton mapping whose payload is present exactly when `success` is false. -/
theorem compare_rv_ok_shape {α : Type} [DecidableEq α] {s t : DataFrame α}
    {pk : String} {res : Results α}
    (h : compare_row_values_between_datasets s t pk = .ok res) :
    ∃ (succ : Bool) (de : Option (String × RowDiff α)),
      res = [("custom_expect_row_values_to_match",
        ⟨succ, de.map (fun p => DetailedErrors.rowValues [p])⟩)] ∧
      (de.isSome ↔ succ = false) := by
  unfold compare_row_values_between_datasets at h
  split at h
  · exact absurd h (by simp)
  · split at h
    · exact absurd h (by simp)
    · split at h
      · exact absurd h (by simp)
      · rename_i si scols hsi ti tcols hti succ de hloop
        injection h with h
        exact ⟨succ, de, h.symm, rvLoop_inv _ _ _ _ _ _ _ _ (by simp) hloop⟩

/-- One dispatched standard-check entry satisfies the detailed-errors/success
linkage, provided the expectation type is one of the supported two (the only
case in which the dispatcher builds an entry). -/
theorem standardResultEntry_inv {α : Type} [DecidableEq α] (v : Validator α)
    (tgt : DataFrame α) (etype : String) (kwargs : List (String × KwargVal))
    (hmem : etype ∈ supported_standard_expectations) :
    ((standardResultEntry v tgt etype kwargs).detailed_errors.isSome ↔
      (standardResultEntry v tgt etype kwargs).success = false) := by
  unfold standardResultEntry
  split
  · simp
  · split
    · simp
    · split
      · simp
      · simp only [supported_standard_expectations, List.mem_cons,
          List.mem_singleton, List.not_mem_nil] at hmem
        rcases hmem with rfl | rfl | h
        · simp_all
        · simp_all
        · exact absurd h (by simp)

/-- Python dict assignment preserves a pointwise property of the entries. -/
theorem dictSet_forall {β : Type} (P : String × β → Prop) :
    ∀ (m : List (String × β)) (k : String) (v : β),
      (∀ p ∈ m, P p) → P (k, v) → ∀ p ∈ dictSet m k v, P p := by
  intro m
  induction m with
  | nil =>
    intro k v _ hv p hp
    have : p = (k, v) := by simpa [dictSet] using hp
    exact this ▸ hv
  | cons q rest ih =>
    intro k v hm hv p hp
    unfold dictSet at hp
    split at hp
    · rcases List.mem_cons.mp hp with rfl | hin
      · exact hv
      · exact hm p (List.mem_cons_of_mem _ hin)
    · rcases List.mem_cons.mp hp with rfl | hin
      · exact hm _ (List.mem_cons_self _ _)
      · exact ih k v (fun r hr => hm r (List.mem_cons_of_mem _ hr)) hv p hin

/-- Association-list lookup at a cons cell, with propositional equality. -/
theorem lookup_cons_eq {β : Type} (x : String) (y : β) (l : List (String × β))
    (z : String) :
    List.lookup z ((x, y) :: l) = if z = x then some y else List.lookup z l := by
  by_cases hz : z = x
  · simp [List.lookup, hz]
  · have hb : (z == x) = false := beq_eq_false_iff_ne.mpr hz
    simp [List.lookup, hb, hz]

/-- Looking a key up after a Python dict assignment. -/
theorem lookup_dictSet {β : Type} :
    ∀ (m : List (String × β)) (k k' : String) (v : β),
      (dictSet m k v).lookup k' = if k' = k then some v else m.lookup k' := by
  intro m
  induction m with
  | nil =>
    intro k k' v
    by_cases h : k' = k <;> simp [dictSet, lookup_cons_eq, h]
  | cons q rest ih =>
    intro k k' v
    obtain ⟨a, b⟩ := q
    unfold dictSet
    by_cases ha : a = k
    · rw [if_pos ha, lookup_cons_eq, lookup_cons_eq]
      subst ha
      by_cases h : k' = a <;> simp [h]
    · rw [if_neg ha, lookup_cons_eq, lookup_cons_eq]
      by_cases h1 : k' = a
      · simp [h1, ha]
      · rw [ih]
        by_cases h2 : k' = k
        · have hka : ¬k = a := fun hk => ha hk.symm
          simp [h1, h2, hka]
        · simp [h1, h2]

/-- Every entry the dispatcher loop produces is either carried over from the
accumulator or built by `standardResultEntry` for a supported expectation. -/
theorem stdLoop_forall {α : Type} [DecidableEq α] (v : Validator α)
    (tgt : DataFrame α) (P : String × CheckResult α → Prop)
    (hP : ∀ etype kwargs, etype ∈ supported_standard_expectations →
          P (etype, standardResultEntry v tgt etype kwargs)) :
    ∀ (exps : List Expectation) (acc : Results α),
      (∀ p ∈ acc, P p) → ∀ p ∈ (stdLoop v tgt exps acc).1, P p := by
  intro exps
  induction exps with
  | nil =>
    intro acc hacc p hp
    exact hacc p (by simpa [stdLoop] using hp)
  | cons e rest ih =>
    intro acc hacc p hp
    unfold stdLoop at hp
    split at hp
    · exact ih acc hacc p hp
    · split at hp
      · exact ih acc hacc p hp
      · rename_i hcustom hsupp
        refine ih _ (dictSet_forall P acc _ _ hacc ?_) p hp
        exact hP _ _ (by simpa using hsupp)

/-! ### Claim theorems -/

/-- C1: the claim states that each comparison check never raises from its
normal comparison logic and that `compare_primary_keys_between_datasets`
always returns a result mapping, duplicate-free inputs with mismatched key
sets included. The code violates this: for duplicate-free inputs whose key
sets differ in both directions, line 187 writes into the absent results key
`custom_expect_row_values_to_match` and raises `KeyError`. This theorem
evaluates the embedding at such an input. -/
theorem c1_comparison_raises_keyerror :
    compare_primary_keys_between_datasets
      (⟨2, [⟨"id", [1, 2]⟩, ⟨"value", [10, 20]⟩]⟩ : DataFrame Int)
      (⟨2, [⟨"id", [2, 3]⟩, ⟨"value", [20, 30]⟩]⟩ : DataFrame Int) "id"
      = .error (.keyError "custom_expect_row_values_to_match") := by
  decide

/-- C2: the claim states that `compare_primary_keys_between_datasets` reports
failure exactly when keys are missing on both sides simultaneously, returning
the `missing_in_target` / `missing_in_source` payload on that failure. The code
instead raises `KeyError` on precisely that branch (before even setting
`success` to `False`), while the identical-key-set case succeeds with no
payload and a purely one-directional mismatch is (as claimed) not flagged.
This theorem evaluates all three cases of the embedding. -/
theorem c2_key_mismatch_behavior :
    compare_primary_keys_between_datasets
      (⟨3, [⟨"id", [1, 2, 3]⟩, ⟨"value", [10, 20, 30]⟩]⟩ : DataFrame Int)
      (⟨3, [⟨"id", [2, 3, 4]⟩, ⟨"value", [20, 30, 40]⟩]⟩ : DataFrame Int) "id"
      = .error (.keyError "custom_expect_row_values_to_match") ∧
    compare_primary_keys_between_datasets
      (⟨2, [⟨"id", [1, 2]⟩, ⟨"value", [10, 20]⟩]⟩ : DataFrame Int)
      (⟨2, [⟨"id", [1, 2]⟩, ⟨"value", [11, 21]⟩]⟩ : DataFrame Int) "id"
      = .ok [("custom_expect_primary_keys_to_match", ⟨true, none⟩)] ∧
    compare_primary_keys_between_datasets
      (⟨2, [⟨"id", [1, 2]⟩, ⟨"value", [10, 20]⟩]⟩ : DataFrame Int)
      (⟨3, [⟨"id", [1, 2, 3]⟩, ⟨"value", [10, 20, 30]⟩]⟩ : DataFrame Int) "id"
      = .ok [("custom_expect_primary_keys_to_match", ⟨true, none⟩)] := by
  refine ⟨by decide, by decide, by decide⟩

/-- C10: both custom comparison functions assume the designated primary-key
column exists in both dataframes; when it is absent from either one, they
raise a `KeyError` (here: return `Except.error (.keyError primary_key)`)
instead of returning a Check Result. -/
theorem c10_missing_pk_column {α : Type} [DecidableEq α]
    (source_data target_data : DataFrame α) (primary_key : String)
    (h : source_data.getCol primary_key = none ∨
         target_data.getCol primary_key = none) :
    compare_primary_keys_between_datasets source_data target_data primary_key
      = .error (.keyError primary_key) ∧
    compare_row_values_between_datasets source_data target_data primary_key
      = .error (.keyError primary_key) := by
  constructor
  · unfold compare_primary_keys_between_datasets
    cases hs : source_data.getCol primary_key with
    | none => rfl
    | some ks =>
      cases ht : target_data.getCol primary_key with
      | none => rfl
      | some kt =>
        rcases h with h | h
        · exact absurd (hs.symm.trans h) (by simp)
        · exact absurd (ht.symm.trans h) (by simp)
  · unfold compare_row_values_between_datasets set_index
    cases hs : source_data.getCol primary_key with
    | none => rfl
    | some ks =>
      cases ht : target_data.getCol primary_key with
      | none => rfl
      | some kt =>
        rcases h with h | h
        · exact absurd (hs.symm.trans h) (by simp)
        · exact absurd (ht.symm.trans h) (by simp)

/-- C10 witness: a concrete pair of dataframes lacking the `id` column. -/
theorem c10_missing_pk_column_witness :
    compare_primary_keys_between_datasets
      (⟨2, [⟨"key", [1, 2]⟩]⟩ : DataFrame Int)
      (⟨2, [⟨"id", [1, 2]⟩]⟩ : DataFrame Int) "id"
      = .error (.keyError "id") ∧
    compare_row_values_between_datasets
      (⟨2, [⟨"key", [1, 2]⟩]⟩ : DataFrame Int)
      (⟨2, [⟨"id", [1, 2]⟩]⟩ : DataFrame Int) "id"
      = .error (.keyError "id") :=
  c10_missing_pk_column _ _ "id" (Or.inl (by decide))

/-- C3: whenever either dataset has a primary-key value of multiplicity at
least two, `compare_primary_keys_between_datasets` fails immediately with the
`duplicate_keys_in_source` / `duplicate_keys_in_target` payload. Each payload
list is a subsequence of the corresponding key column (original row order)
containing exactly the key values of multiplicity at least two, with all their
repeats, and is empty for a dataset without duplicates. The result is returned
for every such input — in particular also when the key sets additionally
mismatch in both directions, which on the key-set-comparison path would raise —
so the key-set comparison step is never performed. -/
theorem c3_duplicate_detection {α : Type} [DecidableEq α]
    (source_data target_data : DataFrame α) (primary_key : String)
    (source_keys target_keys : List α)
    (hs : source_data.getCol primary_key = some source_keys)
    (ht : target_data.getCol primary_key = some target_keys)
    (hdup : (∃ k, 2 ≤ source_keys.count k) ∨ (∃ k, 2 ≤ target_keys.count k)) :
    ∃ ds dt,
      compare_primary_keys_between_datasets source_data target_data primary_key
        = .ok [("custom_expect_primary_keys_to_match",
                ⟨false, some (.pkDuplicates ds dt)⟩)] ∧
      ds.Sublist source_keys ∧ dt.Sublist target_keys ∧
      (∀ k, ds.count k =
        if 2 ≤ source_keys.count k then source_keys.count k else 0) ∧
      (∀ k, dt.count k =
        if 2 ≤ target_keys.count k then target_keys.count k else 0) ∧
      ((∀ k, source_keys.count k ≤ 1) → ds = []) ∧
      ((∀ k, target_keys.count k ≤ 1) → dt = []) := by
  have hcond : duplicateKeys source_keys ≠ [] ∨ duplicateKeys target_keys ≠ [] := by
    rcases hdup with ⟨k, hk⟩ | ⟨k, hk⟩
    · have hkmem : k ∈ source_keys := List.count_pos_iff.mp (by omega)
      exact Or.inl (List.ne_nil_of_mem (List.mem_filter.mpr ⟨hkmem, by simpa using hk⟩))
    · have hkmem : k ∈ target_keys := List.count_pos_iff.mp (by omega)
      exact Or.inr (List.ne_nil_of_mem (List.mem_filter.mpr ⟨hkmem, by simpa using hk⟩))
  refine ⟨duplicateKeys source_keys, duplicateKeys target_keys,
          ?_, List.filter_sublist _, List.filter_sublist _, ?_, ?_, ?_, ?_⟩
  · unfold compare_primary_keys_between_datasets
    rw [hs, ht]
    exact if_pos hcond
  · intro k
    by_cases h2 : 2 ≤ source_keys.count k
    · rw [if_pos h2]
      exact List.count_filter (by simpa using h2)
    · rw [if_neg h2, List.count_eq_zero]
      intro hmem
      exact h2 (by simpa using (List.mem_filter.mp hmem).2)
  · intro k
    by_cases h2 : 2 ≤ target_keys.count k
    · rw [if_pos h2]
      exact List.count_filter (by simpa using h2)
    · rw [if_neg h2, List.count_eq_zero]
      intro hmem
      exact h2 (by simpa using (List.mem_filter.mp hmem).2)
  · intro hone
    rw [duplicateKeys, List.filter_eq_nil_iff]
    intro k hk
    have := hone k
    simp only [decide_eq_true_eq]
    omega
  · intro hone
    rw [duplicateKeys, List.filter_eq_nil_iff]
    intro k hk
    have := hone k
    simp only [decide_eq_true_eq]
    omega

/-- C3 witness: the repository's own test input, source keys `[1, 1, 3]`
against target keys `[1, 2, 3]`. -/
theorem c3_duplicate_detection_witness :
    ∃ ds dt,
      compare_primary_keys_between_datasets
        (⟨3, [⟨"id", [1, 1, 3]⟩, ⟨"value", [100, 200, 301]⟩]⟩ : DataFrame Int)
        (⟨3, [⟨"id", [1, 2, 3]⟩, ⟨"value", [100, 250, 300]⟩]⟩ : DataFrame Int) "id"
        = .ok [("custom_expect_primary_keys_to_match",
                ⟨false, some (.pkDuplicates ds dt)⟩)] ∧
      ds.Sublist [1, 1, 3] ∧ dt.Sublist [1, 2, 3] ∧
      (∀ k : Int, ds.count k =
        if 2 ≤ List.count k [1, 1, 3] then List.count k [1, 1, 3] else 0) ∧
      (∀ k : Int, dt.count k =
        if 2 ≤ List.count k [1, 2, 3] then List.count k [1, 2, 3] else 0) ∧
      ((∀ k : Int, List.count k [1, 1, 3] ≤ 1) → ds = []) ∧
      ((∀ k : Int, List.count k [1, 2, 3] ≤ 1) → dt = []) :=
  c3_duplicate_detection
    (⟨3, [⟨"id", [1, 1, 3]⟩, ⟨"value", [100, 200, 301]⟩]⟩ : DataFrame Int)
    (⟨3, [⟨"id", [1, 2, 3]⟩, ⟨"value", [100, 250, 300]⟩]⟩ : DataFrame Int)
    "id" [1, 1, 3] [1, 2, 3] (by decide) (by decide) (Or.inl ⟨1, by decide⟩)

/-- C6: in every results mapping actually returned by a check — the standard
dispatcher, the primary-key comparison, the row-value comparison, and the
combined custom runner (whose `custom_expect_row_values_to_match` entry nests a
further mapping) — a Check Result carries a `detailed_errors` payload exactly
when its `success` flag is false. -/
theorem c6_detailed_errors_iff_failure (α : Type) [DecidableEq α] :
    (∀ (v : Validator α) (exps : List Expectation) (tgt : DataFrame α)
        (p : String × CheckResult α),
        p ∈ (apply_standard_expectations_to_datasets v exps tgt).1 →
        (p.2.detailed_errors.isSome ↔ p.2.success = false)) ∧
    (∀ (s t : DataFrame α) (pk : String) (res : Results α)
        (p : String × CheckResult α),
        compare_primary_keys_between_datasets s t pk = .ok res → p ∈ res →
        (p.2.detailed_errors.isSome ↔ p.2.success = false)) ∧
    (∀ (s t : DataFrame α) (pk : String) (res : Results α)
        (p : String × CheckResult α),
        compare_row_values_between_datasets s t pk = .ok res → p ∈ res →
        (p.2.detailed_errors.isSome ↔ p.2.success = false)) ∧
    (∀ (s t : DataFrame α) (pk : String) (res : List (String × ResultVal α))
        (p : String × ResultVal α),
        apply_custom_expectations_to_datasets s t pk = .ok res → p ∈ res →
        (∀ r, p.2 = .check r →
          (r.detailed_errors.isSome ↔ r.success = false)) ∧
        (∀ m q, p.2 = .nested m → q ∈ m →
          (q.2.detailed_errors.isSome ↔ q.2.success = false))) := by
  refine ⟨?_, ?_, ?_, ?_⟩
  · intro v exps tgt p hp
    exact stdLoop_forall v tgt
      (fun q => (q.2.detailed_errors.isSome ↔ q.2.success = false))
      (fun etype kwargs hm => standardResultEntry_inv v tgt etype kwargs hm)
      exps [] (by simp) p hp
  · intro s t pk res p h hp
    rcases compare_pk_ok_cases h with ⟨ds, dt, rfl⟩ | rfl
    · have : p = ("custom_expect_primary_keys_to_match",
          ⟨false, some (.pkDuplicates ds dt)⟩) := by simpa using hp
      subst this
      simp
    · have : p = ("custom_expect_primary_keys_to_match",
          (⟨true, none⟩ : CheckResult α)) := by simpa using hp
      subst this
      simp
  · intro s t pk res p h hp
    obtain ⟨succ, de, rfl, hde⟩ := compare_rv_ok_shape h
    have : p = ("custom_expect_row_values_to_match",
        ⟨succ, de.map (fun p => DetailedErrors.rowValues [p])⟩) := by simpa using hp
    subst this
    simpa using hde
  · intro s t pk res p h hp
    unfold apply_custom_expectations_to_datasets at h
    split at h
    · exact absurd h (by simp)
    · rename_i pkres hpk
      split at h
      · exact absurd h (by simp)
      · rename_i pkr hlook
        split at h
        · rename_i hsucc
          split at h
          · exact absurd h (by simp)
          · rename_i rv hrv
            injection h with h
            subst h
            rcases compare_pk_ok_cases hpk with ⟨ds, dt, rfl⟩ | rfl
            · have : pkr = ⟨false, some (.pkDuplicates ds dt)⟩ := by
                symm; simpa using hlook
              rw [this] at hsucc
              simp at hsucc
            · have hp' : p = ("custom_expect_primary_keys_to_match",
                  ResultVal.check ⟨true, none⟩) ∨
                  p = ("custom_expect_row_values_to_match", .nested rv) := by
                simpa using hp
              rcases hp' with rfl | rfl
              · exact ⟨fun r hr => by
                  have : r = (⟨true, none⟩ : CheckResult α) := by
                    simpa using hr.symm
                  subst this; simp,
                  fun m q hm _ => by simp at hm⟩
              · refine ⟨fun r hr => by simp at hr, fun m q hm hq => ?_⟩
                have : m = rv := by simpa using hm.symm
                subst this
                obtain ⟨succ, de, rfl, hde⟩ := compare_rv_ok_shape hrv
                have : q = ("custom_expect_row_values_to_match",
                    ⟨succ, de.map (fun p => DetailedErrors.rowValues [p])⟩) := by
                  simpa using hq
                subst this
                simpa using hde
        · rename_i hsucc
          injection h with h
          subst h
          rcases compare_pk_ok_cases hpk with ⟨ds, dt, rfl⟩ | rfl
          · have hp' : p = ("custom_expect_primary_keys_to_match",
                ResultVal.check ⟨false, some (.pkDuplicates ds dt)⟩) := by
              simpa using hp
            subst hp'
            exact ⟨fun r hr => by
              have : r = (⟨false, some (.pkDuplicates ds dt)⟩ : CheckResult α) := by
                simpa using hr.symm
              subst this; simp,
              fun m q hm _ => by simp at hm⟩
          · have : pkr = (⟨true, none⟩ : CheckResult α) := by symm; simpa using hlook
            rw [this] at hsucc
            simp at hsucc

/-- C6 witness: the duplicate-keys failure entry of the repository's own test
input satisfies the linkage. -/
theorem c6_detailed_errors_iff_failure_witness :
    ((⟨false, some (.pkDuplicates [1, 1] [])⟩ : CheckResult Int).detailed_errors.isSome
      ↔ (⟨false, some (.pkDuplicates [1, 1] [])⟩ : CheckResult Int).success = false) :=
  (c6_detailed_errors_iff_failure Int).2.1
    (⟨3, [⟨"id", [1, 1, 3]⟩, ⟨"value", [100, 200, 301]⟩]⟩ : DataFrame Int)
    (⟨3, [⟨"id", [1, 2, 3]⟩, ⟨"value", [100, 250, 300]⟩]⟩ : DataFrame Int) "id"
    [("custom_expect_primary_keys_to_match", ⟨false, some (.pkDuplicates [1, 1] [])⟩)]
    ("custom_expect_primary_keys_to_match", ⟨false, some (.pkDuplicates [1, 1] [])⟩)
    (by decide) (by decide)

/-- C4 counterexample: the claim says `apply_custom_expectations_to_datasets`
always returns a results mapping containing the primary-key entry. At a
duplicate-free input whose key sets mismatch in both directions, the inner
primary-key comparison raises `KeyError` (the line-187 slip), so the function
raises and returns no mapping at all. -/
theorem c4_skip_counterexample :
    apply_custom_expectations_to_datasets
      (⟨2, [⟨"id", [1, 2]⟩, ⟨"value", [10, 20]⟩]⟩ : DataFrame Int)
      (⟨2, [⟨"id", [2, 3]⟩, ⟨"value", [20, 30]⟩]⟩ : DataFrame Int) "id"
      = .error (.keyError "custom_expect_row_values_to_match") := by
  decide

/-- C4 as amended: whenever `apply_custom_expectations_to_datasets` does
return a results mapping, that mapping contains an entry for
`custom_expect_primary_keys_to_match`; it contains an entry for
`custom_expect_row_values_to_match` if and only if the primary-key check
succeeded; and when the primary-key check fails, the mapping is exactly the
primary-key result — the row-value comparison is skipped entirely. -/
theorem c4_skip_amended {α : Type} [DecidableEq α] (s t : DataFrame α)
    (pk : String) (res : List (String × ResultVal α))
    (h : apply_custom_expectations_to_datasets s t pk = .ok res) :
    ∃ pkr : CheckResult α,
      res.lookup "custom_expect_primary_keys_to_match" = some (.check pkr) ∧
      ((res.lookup "custom_expect_row_values_to_match").isSome ↔
        pkr.success = true) ∧
      (pkr.success = false →
        res = [("custom_expect_primary_keys_to_match", .check pkr)]) := by
  unfold apply_custom_expectations_to_datasets at h
  split at h
  · exact absurd h (by simp)
  · rename_i pkres hpk
    split at h
    · exact absurd h (by simp)
    · rename_i pkr hlook
      split at h
      · rename_i hsucc
        split at h
        · exact absurd h (by simp)
        · rename_i rv hrv
          injection h with h
          subst h
          rcases compare_pk_ok_cases hpk with ⟨ds, dt, rfl⟩ | rfl
          · have : pkr = ⟨false, some (.pkDuplicates ds dt)⟩ := by symm; simpa using hlook
            rw [this] at hsucc
            simp at hsucc
          · have hpkr : pkr = (⟨true, none⟩ : CheckResult α) := by symm; simpa using hlook
            subst hpkr
            refine ⟨⟨true, none⟩, by simp [List.lookup], by simp [List.lookup], by simp⟩
      · rename_i hsucc
        injection h with h
        subst h
        rcases compare_pk_ok_cases hpk with ⟨ds, dt, rfl⟩ | rfl
        · have hpkr : pkr = ⟨false, some (.pkDuplicates ds dt)⟩ := by symm; simpa using hlook
          subst hpkr
          exact ⟨⟨false, some (.pkDuplicates ds dt)⟩,
            by simp [List.lookup], by simp [List.lookup], fun _ => by simp⟩
        · have : pkr = (⟨true, none⟩ : CheckResult α) := by symm; simpa using hlook
          rw [this] at hsucc
          simp at hsucc

/-- C4 witness: the repository's own test input, on which the primary-key
check succeeds and the row-value entry is present. -/
theorem c4_skip_amended_witness :
    ∃ pkr : CheckResult Int,
      List.lookup "custom_expect_primary_keys_to_match"
        [("custom_expect_primary_keys_to_match", ResultVal.check ⟨true, none⟩),
         ("custom_expect_row_values_to_match", ResultVal.nested
           [("custom_expect_row_values_to_match",
             ⟨false, some (.rowValues [("value", ⟨[2], [200], [250]⟩)])⟩)])]
        = some (.check pkr) ∧
      ((List.lookup "custom_expect_row_values_to_match"
        [("custom_expect_primary_keys_to_match", ResultVal.check ⟨true, none⟩),
         ("custom_expect_row_values_to_match", ResultVal.nested
           [("custom_expect_row_values_to_match",
             ⟨false, some (.rowValues [("value", ⟨[2], [200], [250]⟩)])⟩)])]).isSome ↔
        pkr.success = true) ∧
      (pkr.success = false →
        [("custom_expect_primary_keys_to_match", ResultVal.check ⟨true, none⟩),
         ("custom_expect_row_values_to_match", ResultVal.nested
           [("custom_expect_row_values_to_match",
             ⟨false, some (.rowValues [("value", ⟨[2], [200], [250]⟩)])⟩)])]
          = [("custom_expect_primary_keys_to_match", .check pkr)]) :=
  c4_skip_amended
    (⟨3, [⟨"id", [1, 2, 3]⟩, ⟨"value", [100, 200, 300]⟩]⟩ : DataFrame Int)
    (⟨3, [⟨"id", [1, 2, 3]⟩, ⟨"value", [100, 250, 300]⟩]⟩ : DataFrame Int) "id" _
    (by decide)

/-- When the two aligned indexes are identical, the row-value column loop
never raises; its success flag clears exactly when some shared column differs,
and its final payload is the last differing shared column (or the incoming
payload when none differs). -/
theorem rvLoop_eq_spec {α : Type} [DecidableEq α] (keys : List α)
    (target_cols : List (Col α)) :
    ∀ (cols : List (Col α)) (succ : Bool) (de : Option (String × RowDiff α)),
      rvLoop target_cols keys keys cols succ de =
        .ok (succ && (differingSharedCols keys target_cols cols).isEmpty,
             ((differingSharedCols keys target_cols cols).getLast?).elim de some) := by
  intro cols
  induction cols with
  | nil =>
    intro succ de
    simp [rvLoop, differingSharedCols]
  | cons c rest ih =>
    intro succ de
    unfold rvLoop differingSharedCols
    cases hf : target_cols.find? (fun tc => tc.name == c.name) with
    | none =>
      simp only [hf]
      exact ih succ de
    | some tc =>
      simp only [hf, if_pos rfl]
      by_cases hany : ((c.vals.zip tc.vals).any (fun p => decide (p.1 ≠ p.2))) = true
      · rw [if_pos hany, if_pos hany, ih false (some (c.name, colDiff keys c.vals tc.vals))]
        cases hD : differingSharedCols keys target_cols rest with
        | nil => simp [hD]
        | cons d rest' =>
          rw [List.getLast?_cons_cons]
          obtain ⟨x, hx⟩ : ∃ x, (d :: rest').getLast? = some x :=
            Option.isSome_iff_exists.mp (by simp [List.getLast?_isSome])
          simp [hx]
      · rw [if_neg hany, if_neg hany]
        exact ih succ de

/-- C5 counterexample: the claim says that for each column with a differing
row the payload records that column's diff. At an input satisfying the claim's
precondition (unique keys, equal key sets — here even identical sequences)
where two shared columns `a` and `b` both differ, the code's payload contains
only the entry for `b`, the last differing column; column `a` differs but has
no entry, because line 225 resets `detailed_errors` on every differing
column. -/
theorem c5_row_value_counterexample :
    compare_row_values_between_datasets
      (⟨1, [⟨"id", [1]⟩, ⟨"a", [10]⟩, ⟨"b", [20]⟩]⟩ : DataFrame Int)
      (⟨1, [⟨"id", [1]⟩, ⟨"a", [11]⟩, ⟨"b", [21]⟩]⟩ : DataFrame Int) "id"
      = .ok [("custom_expect_row_values_to_match",
          ⟨false, some (.rowValues [("b", ⟨[1], [20], [21]⟩)])⟩)] ∧
    DataFrame.getCol (⟨1, [⟨"id", [1]⟩, ⟨"a", [10]⟩, ⟨"b", [20]⟩]⟩ : DataFrame Int) "id"
      = some [1] ∧
    DataFrame.getCol (⟨1, [⟨"id", [1]⟩, ⟨"a", [11]⟩, ⟨"b", [21]⟩]⟩ : DataFrame Int) "id"
      = some [1] ∧
    DataFrame.getCol (⟨1, [⟨"id", [1]⟩, ⟨"a", [10]⟩, ⟨"b", [20]⟩]⟩ : DataFrame Int) "a"
      = some [10] ∧
    DataFrame.getCol (⟨1, [⟨"id", [1]⟩, ⟨"a", [11]⟩, ⟨"b", [21]⟩]⟩ : DataFrame Int) "a"
      = some [11] ∧
    List.lookup "a" [("b", (⟨[1], [20], [21]⟩ : RowDiff Int))] = none := by
  refine ⟨by decide, by decide, by decide, by decide, by decide, by decide⟩

/-- C5 as amended: under the precondition that primary-key values are unique
within each dataset and the key *sequences* of source and target are identical
(equal key sets alone do not suffice: with a different row order the pandas
comparison raises `ValueError`), `compare_row_values_between_datasets` returns
the singleton row-value result whose success flag is set exactly when
`differingSharedCols` — the spec-side list of all shared differing columns,
which also omits every column present in only one dataset — is empty, and
whose payload, when present, records only the *last* differing shared column
(in source column order) with its `row_indices`, `source_data_values` and
`target_data_values`. -/
theorem c5_row_value_amended {α : Type} [DecidableEq α]
    (s t : DataFrame α) (pk : String) (ks kt : List α)
    (hs : s.getCol pk = some ks) (ht : t.getCol pk = some kt)
    (hsu : ks.Nodup) (htu : kt.Nodup) (hseq : ks = kt) :
    compare_row_values_between_datasets s t pk =
      .ok [("custom_expect_row_values_to_match",
        ⟨(differingSharedCols ks (t.cols.filter (fun c => c.name ≠ pk))
            (s.cols.filter (fun c => c.name ≠ pk))).isEmpty,
         ((differingSharedCols ks (t.cols.filter (fun c => c.name ≠ pk))
            (s.cols.filter (fun c => c.name ≠ pk))).getLast?).map
           (fun p => DetailedErrors.rowValues [p])⟩)] ∧
    (compare_row_values_between_datasets s t pk =
        .ok [("custom_expect_row_values_to_match", ⟨true, none⟩)] ↔
      differingSharedCols ks (t.cols.filter (fun c => c.name ≠ pk))
        (s.cols.filter (fun c => c.name ≠ pk)) = []) := by
  subst hseq
  have hoe : ∀ (o : Option (String × RowDiff α)), o.elim none some = o := by
    intro o
    cases o <;> rfl
  have hmain : compare_row_values_between_datasets s t pk =
      .ok [("custom_expect_row_values_to_match",
        ⟨(differingSharedCols ks (t.cols.filter (fun c => c.name ≠ pk))
            (s.cols.filter (fun c => c.name ≠ pk))).isEmpty,
         ((differingSharedCols ks (t.cols.filter (fun c => c.name ≠ pk))
            (s.cols.filter (fun c => c.name ≠ pk))).getLast?).map
           (fun p => DetailedErrors.rowValues [p])⟩)] := by
    unfold compare_row_values_between_datasets set_index
    simp only [hs, ht]
    rw [rvLoop_eq_spec]
    rw [hoe]
    simp [Bool.true_and]
  refine ⟨hmain, ?_⟩
  rw [hmain]
  constructor
  · intro h
    have h' := h
    simp only [Except.ok.injEq, List.cons.injEq, Prod.mk.injEq, CheckResult.mk.injEq,
      and_true, true_and] at h'
    exact List.isEmpty_iff.mp h'.1
  · intro hD
    rw [hD]
    rfl

/-- C5 witness: identical key sequences `[1, 2]`, one shared differing
column. -/
theorem c5_row_value_amended_witness :
    compare_row_values_between_datasets
      (⟨2, [⟨"id", [1, 2]⟩, ⟨"value", [10, 20]⟩]⟩ : DataFrame Int)
      (⟨2, [⟨"id", [1, 2]⟩, ⟨"value", [10, 21]⟩]⟩ : DataFrame Int) "id" =
      .ok [("custom_expect_row_values_to_match",
        ⟨(differingSharedCols [1, 2]
            ((⟨2, [⟨"id", [1, 2]⟩, ⟨"value", [10, 21]⟩]⟩ : DataFrame Int).cols.filter
              (fun c => c.name ≠ "id"))
            ((⟨2, [⟨"id", [1, 2]⟩, ⟨"value", [10, 20]⟩]⟩ : DataFrame Int).cols.filter
              (fun c => c.name ≠ "id"))).isEmpty,
         ((differingSharedCols [1, 2]
            ((⟨2, [⟨"id", [1, 2]⟩, ⟨"value", [10, 21]⟩]⟩ : DataFrame Int).cols.filter
              (fun c => c.name ≠ "id"))
            ((⟨2, [⟨"id", [1, 2]⟩, ⟨"value", [10, 20]⟩]⟩ : DataFrame Int).cols.filter
              (fun c => c.name ≠ "id"))).getLast?).map
           (fun p => DetailedErrors.rowValues [p])⟩)] ∧
    (compare_row_values_between_datasets
      (⟨2, [⟨"id", [1, 2]⟩, ⟨"value", [10, 20]⟩]⟩ : DataFrame Int)
      (⟨2, [⟨"id", [1, 2]⟩, ⟨"value", [10, 21]⟩]⟩ : DataFrame Int) "id" =
        .ok [("custom_expect_row_values_to_match", ⟨true, none⟩)] ↔
      differingSharedCols [1, 2]
        ((⟨2, [⟨"id", [1, 2]⟩, ⟨"value", [10, 21]⟩]⟩ : DataFrame Int).cols.filter
          (fun c => c.name ≠ "id"))
        ((⟨2, [⟨"id", [1, 2]⟩, ⟨"value", [10, 20]⟩]⟩ : DataFrame Int).cols.filter
          (fun c => c.name ≠ "id")) = []) :=
  c5_row_value_amended
    (⟨2, [⟨"id", [1, 2]⟩, ⟨"value", [10, 20]⟩]⟩ : DataFrame Int)
    (⟨2, [⟨"id", [1, 2]⟩, ⟨"value", [10, 21]⟩]⟩ : DataFrame Int) "id" [1, 2] [1, 2]
    (by decide) (by decide) (by decide) (by decide) rfl

/-- Sentinel substitution for the schema-check expectation type. -/
theorem substituteKwargs_cols {α : Type} (kw : List (String × KwargVal))
    (tgt : DataFrame α) :
    substituteKwargs "expect_table_columns_to_match_ordered_list" kw tgt
      = if kw.lookup "column_list" = some (.str "source")
        then dictSet kw "column_list" (.strList tgt.columns) else kw := by
  have hne : ("expect_table_columns_to_match_ordered_list" : String)
      ≠ "expect_table_row_count_to_equal" := by decide
  by_cases hsent : kw.lookup "column_list" = some (KwargVal.str "source") <;>
    simp only [substituteKwargs, hsent] <;> simp [hne]

/-- Sentinel substitution for the row-count expectation type. -/
theorem substituteKwargs_rc {α : Type} (kw : List (String × KwargVal))
    (tgt : DataFrame α) :
    substituteKwargs "expect_table_row_count_to_equal" kw tgt
      = if kw.lookup "value" = some (.str "source")
        then dictSet kw "value" (.nat tgt.nrows) else kw := by
  have hne : ("expect_table_row_count_to_equal" : String)
      ≠ "expect_table_columns_to_match_ordered_list" := by decide
  by_cases hsent : kw.lookup "value" = some (KwargVal.str "source") <;>
    simp only [substituteKwargs] <;> simp [hne, hsent]

/-- Sentinel substitution is the identity on every other expectation type. -/
theorem substituteKwargs_other {α : Type} (et : String)
    (kw : List (String × KwargVal)) (tgt : DataFrame α)
    (h1 : et ≠ "expect_table_columns_to_match_ordered_list")
    (h2 : et ≠ "expect_table_row_count_to_equal") :
    substituteKwargs et kw tgt = kw := by
  simp [substituteKwargs, h1, h2]

/-- Sentinel substitution is idempotent: once a `"source"` sentinel has been
replaced by a concrete column list or row count, a second pass finds no
sentinel and changes nothing. -/
theorem substituteKwargs_idem {α : Type} (et : String)
    (kw : List (String × KwargVal)) (tgt : DataFrame α) :
    substituteKwargs et (substituteKwargs et kw tgt) tgt
      = substituteKwargs et kw tgt := by
  by_cases hA : et = "expect_table_columns_to_match_ordered_list"
  · subst hA
    rw [substituteKwargs_cols kw tgt]
    by_cases hsent : kw.lookup "column_list" = some (KwargVal.str "source")
    · rw [if_pos hsent, substituteKwargs_cols, if_neg]
      rw [lookup_dictSet]
      simp
    · rw [if_neg hsent, substituteKwargs_cols, if_neg hsent]
  · by_cases hB : et = "expect_table_row_count_to_equal"
    · subst hB
      rw [substituteKwargs_rc kw tgt]
      by_cases hsent : kw.lookup "value" = some (KwargVal.str "source")
      · rw [if_pos hsent, substituteKwargs_rc, if_neg]
        rw [lookup_dictSet]
        simp
      · rw [if_neg hsent, substituteKwargs_rc, if_neg hsent]
    · rw [substituteKwargs_other et kw tgt hA hB,
        substituteKwargs_other et kw tgt hA hB]

/-- The dispatcher loop is idempotent on the descriptor list it leaves behind:
rerunning it on the mutated list (with the same accumulator) returns the same
results and the same list. -/
theorem stdLoop_idem {α : Type} [DecidableEq α] (v : Validator α)
    (tgt : DataFrame α) :
    ∀ (exps : List Expectation) (acc : Results α),
      stdLoop v tgt (stdLoop v tgt exps acc).2 acc = stdLoop v tgt exps acc := by
  intro exps
  induction exps with
  | nil =>
    intro acc
    simp [stdLoop]
  | cons e rest ih =>
    intro acc
    by_cases hc : strStartsWith e.expectation_type "custom_" = true
    · simp only [stdLoop, hc, if_true]
      rw [ih]
    · by_cases hs : e.expectation_type ∈ supported_standard_expectations
      · simp only [stdLoop, hc, Bool.false_eq_true, if_false,
          if_neg (not_not_intro hs), substituteKwargs_idem]
        rw [ih]
      · simp only [stdLoop, hc, Bool.false_eq_true, if_false, if_pos hs]
        rw [ih]

/-- C7 counterexample: the claim says a check run leaves all of its inputs,
including the descriptor list, unchanged. Running the dispatcher on a
row-count descriptor carrying the `"source"` sentinel overwrites that kwargs
value in place with the target's concrete row count, so the descriptor list
after the run differs from the one passed in. -/
theorem c7_mutation_counterexample :
    (apply_standard_expectations_to_datasets
      (⟨⟨2, [⟨"id", [1, 2]⟩]⟩⟩ : Validator Int)
      [⟨"expect_table_row_count_to_equal", [("value", .str "source")]⟩]
      (⟨2, [⟨"id", [1, 2]⟩]⟩ : DataFrame Int)).2
      = [⟨"expect_table_row_count_to_equal", [("value", .nat 2)]⟩] ∧
    (⟨"expect_table_row_count_to_equal", [("value", KwargVal.nat 2)]⟩ : Expectation)
      ≠ ⟨"expect_table_row_count_to_equal", [("value", KwargVal.str "source")]⟩ := by
  refine ⟨by decide, by decide⟩

/-- C7 as amended: no check mutates the source or target dataset (in this
embedding every function takes the dataframes as read-only values and the
Python code calls no mutating dataframe operation — `set_index` is invoked
with `inplace=False`), and rerunning a check on unchanged inputs yields
identical results. The one exception to input preservation is the descriptor
list: `apply_standard_expectations_to_datasets` overwrites `"source"` sentinel
kwargs in place. That mutation reaches a fixpoint after one run: rerunning the
dispatcher on the descriptor list it left behind yields identical results and
no further change to the list. -/
theorem c7_idempotence_amended {α : Type} [DecidableEq α] (v : Validator α)
    (exps : List Expectation) (tgt : DataFrame α) :
    apply_standard_expectations_to_datasets v
        (apply_standard_expectations_to_datasets v exps tgt).2 tgt
      = apply_standard_expectations_to_datasets v exps tgt :=
  stdLoop_idem v tgt exps []

/-- C7 witness: the amended idempotence theorem at the sentinel-carrying
descriptor of `main.py`, whose kwargs the first run rewrites. -/
theorem c7_idempotence_amended_witness :
    apply_standard_expectations_to_datasets
      (⟨⟨2, [⟨"id", [1, 2]⟩]⟩⟩ : Validator Int)
      (apply_standard_expectations_to_datasets
        (⟨⟨2, [⟨"id", [1, 2]⟩]⟩⟩ : Validator Int)
        [⟨"expect_table_row_count_to_equal", [("value", .str "source")]⟩]
        (⟨2, [⟨"id", [1, 2]⟩]⟩ : DataFrame Int)).2
      (⟨2, [⟨"id", [1, 2]⟩]⟩ : DataFrame Int)
      = apply_standard_expectations_to_datasets
        (⟨⟨2, [⟨"id", [1, 2]⟩]⟩⟩ : Validator Int)
        [⟨"expect_table_row_count_to_equal", [("value", .str "source")]⟩]
        (⟨2, [⟨"id", [1, 2]⟩]⟩ : DataFrame Int) :=
  c7_idempotence_amended
    (⟨⟨2, [⟨"id", [1, 2]⟩]⟩⟩ : Validator Int)
    [⟨"expect_table_row_count_to_equal", [("value", .str "source")]⟩]
    (⟨2, [⟨"id", [1, 2]⟩]⟩ : DataFrame Int)

/-- Neither supported standard expectation name carries the custom marker. -/
theorem supported_not_custom :
    ∀ x ∈ supported_standard_expectations, strStartsWith x "custom_" = false := by
  intro x hx
  simp only [supported_standard_expectations, List.mem_cons,
    List.not_mem_nil, or_false] at hx
  rcases hx with rfl | rfl <;> decide

/-- Dispatching a single supported descriptor produces exactly its entry,
built from the sentinel-substituted kwargs. -/
theorem apply_standard_singleton {α : Type} [DecidableEq α] (v : Validator α)
    (tgt : DataFrame α) (et : String) (kwargs : List (String × KwargVal))
    (hsupp : et ∈ supported_standard_expectations) :
    (apply_standard_expectations_to_datasets v [⟨et, kwargs⟩] tgt).1
      = [(et, standardResultEntry v tgt et (substituteKwargs et kwargs tgt))] := by
  have hc : strStartsWith et "custom_" = false := supported_not_custom et hsupp
  simp only [apply_standard_expectations_to_datasets, stdLoop, hc,
    Bool.false_eq_true, if_false, if_neg (not_not_intro hsupp)]
  rfl

/-- With the `"source"` sentinel, the dispatched schema check succeeds exactly
when the source's column sequence equals the target's. -/
theorem gx_cols_success_sentinel {α : Type} [DecidableEq α] (v : Validator α)
    (tgt : DataFrame α) (kwargs : List (String × KwargVal))
    (hsent : kwargs.lookup "column_list" = some (.str "source")) :
    gxExpectationSuccess v "expect_table_columns_to_match_ordered_list"
        (substituteKwargs "expect_table_columns_to_match_ordered_list" kwargs tgt)
      = decide (v.dataframe.columns = tgt.columns) := by
  rw [substituteKwargs_cols, if_pos hsent]
  unfold gxExpectationSuccess
  rw [if_pos rfl, lookup_dictSet]
  simp

/-- With the `"source"` sentinel, the dispatched row-count check succeeds
exactly when the source's row count equals the target's. -/
theorem gx_rc_success_sentinel {α : Type} [DecidableEq α] (v : Validator α)
    (tgt : DataFrame α) (kwargs : List (String × KwargVal))
    (hsent : kwargs.lookup "value" = some (.str "source")) :
    gxExpectationSuccess v "expect_table_row_count_to_equal"
        (substituteKwargs "expect_table_row_count_to_equal" kwargs tgt)
      = decide (v.dataframe.nrows = tgt.nrows) := by
  rw [substituteKwargs_rc, if_pos hsent]
  unfold gxExpectationSuccess
  rw [if_neg (by decide), if_pos rfl, lookup_dictSet]
  simp

/-- C8: dispatched with the `"source"` sentinel (the spec's schema check,
comparing source against target), the schema check succeeds exactly when the
two column sequences are identical in content and order; and whenever a
dispatched schema check fails, its payload lists exactly the symmetric
difference of the column name sets — `missing_in_target_data` the source-only
columns, `missing_in_source_data` the target-only columns — so an
order-only difference yields two empty difference sets. -/
theorem c8_schema_check {α : Type} [DecidableEq α] (v : Validator α)
    (tgt : DataFrame α) (kwargs : List (String × KwargVal)) :
    (kwargs.lookup "column_list" = some (.str "source") →
      ((apply_standard_expectations_to_datasets v
          [⟨"expect_table_columns_to_match_ordered_list", kwargs⟩] tgt).1.lookup
          "expect_table_columns_to_match_ordered_list" = some ⟨true, none⟩
        ↔ v.dataframe.columns = tgt.columns)) ∧
    (∀ mt ms,
      (apply_standard_expectations_to_datasets v
          [⟨"expect_table_columns_to_match_ordered_list", kwargs⟩] tgt).1.lookup
          "expect_table_columns_to_match_ordered_list"
        = some ⟨false, some (.schema mt ms)⟩ →
      (∀ c, c ∈ mt ↔ c ∈ v.dataframe.columns ∧ c ∉ tgt.columns) ∧
      (∀ c, c ∈ ms ↔ c ∈ tgt.columns ∧ c ∉ v.dataframe.columns) ∧
      ((∀ c, c ∈ v.dataframe.columns ↔ c ∈ tgt.columns) → mt = [] ∧ ms = [])) := by
  have hsupp : ("expect_table_columns_to_match_ordered_list" : String)
      ∈ supported_standard_expectations := by
    simp [supported_standard_expectations]
  have hres := apply_standard_singleton v tgt
    "expect_table_columns_to_match_ordered_list" kwargs hsupp
  constructor
  · intro hsent
    rw [hres, lookup_cons_eq, if_pos rfl]
    have hgx := gx_cols_success_sentinel v tgt kwargs hsent
    unfold standardResultEntry
    rw [hgx]
    by_cases hcc : v.dataframe.columns = tgt.columns
    · simp [hcc]
    · simp [hcc]
  · intro mt ms hentry
    rw [hres, lookup_cons_eq, if_pos rfl] at hentry
    unfold standardResultEntry at hentry
    split at hentry
    · exact absurd hentry (by simp)
    · rw [if_pos rfl] at hentry
      have hmt : mt = (v.dataframe.columns.dedup.filter
          (fun c => c ∉ tgt.columns)) ∧ ms = (tgt.columns.dedup.filter
          (fun c => c ∉ v.dataframe.columns)) := by
        have := hentry
        simp only [Option.some.injEq, CheckResult.mk.injEq,
          DetailedErrors.schema.injEq, true_and] at this
        exact ⟨this.1.symm, this.2.symm⟩
      obtain ⟨rfl, rfl⟩ := hmt
      refine ⟨?_, ?_, ?_⟩
      · intro c
        simp [List.mem_filter, List.mem_dedup]
      · intro c
        simp [List.mem_filter, List.mem_dedup]
      · intro hset
        constructor
        · rw [List.eq_nil_iff_forall_not_mem]
          intro c hcmem
          rw [List.mem_filter, List.mem_dedup] at hcmem
          exact absurd ((hset c).mp hcmem.1) (by simpa using hcmem.2)
        · rw [List.eq_nil_iff_forall_not_mem]
          intro c hcmem
          rw [List.mem_filter, List.mem_dedup] at hcmem
          exact absurd ((hset c).mpr hcmem.1) (by simpa using hcmem.2)

/-- C8 witness: source columns `[id, value, extra]` against target columns
`[id, value, other]` — the check fails and the payload holds exactly the
symmetric difference. -/
theorem c8_schema_check_witness :
    (List.lookup "column_list" [("column_list", KwargVal.str "source")]
        = some (.str "source") →
      ((apply_standard_expectations_to_datasets
          (⟨⟨1, [⟨"id", [1]⟩, ⟨"value", [2]⟩, ⟨"extra", [3]⟩]⟩⟩ : Validator Int)
          [⟨"expect_table_columns_to_match_ordered_list",
            [("column_list", KwargVal.str "source")]⟩]
          (⟨1, [⟨"id", [1]⟩, ⟨"value", [2]⟩, ⟨"other", [3]⟩]⟩ : DataFrame Int)).1.lookup
          "expect_table_columns_to_match_ordered_list" = some ⟨true, none⟩
        ↔ DataFrame.columns (⟨1, [⟨"id", [1]⟩, ⟨"value", [2]⟩, ⟨"extra", [3]⟩]⟩ : DataFrame Int)
            = DataFrame.columns (⟨1, [⟨"id", [1]⟩, ⟨"value", [2]⟩, ⟨"other", [3]⟩]⟩ : DataFrame Int))) ∧
    (∀ mt ms,
      (apply_standard_expectations_to_datasets
          (⟨⟨1, [⟨"id", [1]⟩, ⟨"value", [2]⟩, ⟨"extra", [3]⟩]⟩⟩ : Validator Int)
          [⟨"expect_table_columns_to_match_ordered_list",
            [("column_list", KwargVal.str "source")]⟩]
          (⟨1, [⟨"id", [1]⟩, ⟨"value", [2]⟩, ⟨"other", [3]⟩]⟩ : DataFrame Int)).1.lookup
          "expect_table_columns_to_match_ordered_list"
        = some ⟨false, some (.schema mt ms)⟩ →
      (∀ c, c ∈ mt ↔ c ∈ DataFrame.columns
          (⟨1, [⟨"id", [1]⟩, ⟨"value", [2]⟩, ⟨"extra", [3]⟩]⟩ : DataFrame Int) ∧
        c ∉ DataFrame.columns
          (⟨1, [⟨"id", [1]⟩, ⟨"value", [2]⟩, ⟨"other", [3]⟩]⟩ : DataFrame Int)) ∧
      (∀ c, c ∈ ms ↔ c ∈ DataFrame.columns
          (⟨1, [⟨"id", [1]⟩, ⟨"value", [2]⟩, ⟨"other", [3]⟩]⟩ : DataFrame Int) ∧
        c ∉ DataFrame.columns
          (⟨1, [⟨"id", [1]⟩, ⟨"value", [2]⟩, ⟨"extra", [3]⟩]⟩ : DataFrame Int)) ∧
      ((∀ c, c ∈ DataFrame.columns
            (⟨1, [⟨"id", [1]⟩, ⟨"value", [2]⟩, ⟨"extra", [3]⟩]⟩ : DataFrame Int) ↔
          c ∈ DataFrame.columns
            (⟨1, [⟨"id", [1]⟩, ⟨"value", [2]⟩, ⟨"other", [3]⟩]⟩ : DataFrame Int)) →
        mt = [] ∧ ms = [])) :=
  c8_schema_check
    (⟨⟨1, [⟨"id", [1]⟩, ⟨"value", [2]⟩, ⟨"extra", [3]⟩]⟩⟩ : Validator Int)
    (⟨1, [⟨"id", [1]⟩, ⟨"value", [2]⟩, ⟨"other", [3]⟩]⟩ : DataFrame Int)
    [("column_list", KwargVal.str "source")]

/-- A results key is present after the dispatcher loop exactly when it was
already in the accumulator or some descriptor carries it as a supported
expectation type. -/
theorem stdLoop_lookup_isSome {α : Type} [DecidableEq α] (v : Validator α)
    (tgt : DataFrame α) :
    ∀ (exps : List Expectation) (acc : Results α) (k : String),
      (((stdLoop v tgt exps acc).1.lookup k).isSome = true) ↔
        ((acc.lookup k).isSome = true ∨
          (k ∈ supported_standard_expectations ∧
            ∃ e ∈ exps, e.expectation_type = k)) := by
  intro exps
  induction exps with
  | nil =>
    intro acc k
    simp [stdLoop]
  | cons e rest ih =>
    intro acc k
    by_cases hc : strStartsWith e.expectation_type "custom_" = true
    · simp only [stdLoop, hc, if_true]
      rw [ih]
      constructor
      · rintro (h | ⟨hmem, e', he', hk⟩)
        · exact Or.inl h
        · exact Or.inr ⟨hmem, e', List.mem_cons_of_mem _ he', hk⟩
      · rintro (h | ⟨hmem, e', he', hk⟩)
        · exact Or.inl h
        · rcases List.mem_cons.mp he' with rfl | hin
          · rw [hk, supported_not_custom k hmem] at hc
            exact absurd hc (by simp)
          · exact Or.inr ⟨hmem, e', hin, hk⟩
    · by_cases hs : e.expectation_type ∈ supported_standard_expectations
      · simp only [stdLoop, hc, Bool.false_eq_true, if_false,
          if_neg (not_not_intro hs)]
        rw [ih, lookup_dictSet]
        by_cases hk : k = e.expectation_type
        · subst hk
          rw [if_pos rfl]
          constructor
          · intro _
            exact Or.inr ⟨hs, e, List.mem_cons_self _ _, rfl⟩
          · intro _
            simp
        · rw [if_neg hk]
          constructor
          · rintro (h | ⟨hmem, e', he', hke⟩)
            · exact Or.inl h
            · exact Or.inr ⟨hmem, e', List.mem_cons_of_mem _ he', hke⟩
          · rintro (h | ⟨hmem, e', he', hke⟩)
            · exact Or.inl h
            · rcases List.mem_cons.mp he' with rfl | hin
              · exact absurd hke.symm hk
              · exact Or.inr ⟨hmem, e', hin, hke⟩
      · simp only [stdLoop, hc, Bool.false_eq_true, if_false, if_pos hs]
        rw [ih]
        constructor
        · rintro (h | ⟨hmem, e', he', hke⟩)
          · exact Or.inl h
          · exact Or.inr ⟨hmem, e', List.mem_cons_of_mem _ he', hke⟩
        · rintro (h | ⟨hmem, e', he', hke⟩)
          · exact Or.inl h
          · rcases List.mem_cons.mp he' with rfl | hin
            · exact absurd (hke ▸ hmem) hs
            · exact Or.inr ⟨hmem, e', hin, hke⟩

/-- C9: the dispatcher produces a results entry for a key exactly when some
descriptor carries that key as its expectation type and the key belongs to the
supported standard set — so `custom_`-marked descriptors and unrecognized
standard names are skipped, without error (the dispatcher is total) and
without an entry. Moreover, for descriptors carrying the `"source"` sentinel,
the value substituted before dispatch is live: the schema check's outcome
compares the source's column list against the target's column list, and the
row-count check's outcome compares the source's row count against the target's
row count. -/
theorem c9_dispatcher {α : Type} [DecidableEq α] (v : Validator α)
    (tgt : DataFrame α) :
    (∀ (exps : List Expectation) (k : String),
      (((apply_standard_expectations_to_datasets v exps tgt).1.lookup k).isSome
          = true) ↔
        (k ∈ supported_standard_expectations ∧
          ∃ e ∈ exps, e.expectation_type = k)) ∧
    (∀ kwargs, kwargs.lookup "column_list" = some (.str "source") →
      ∃ r, (apply_standard_expectations_to_datasets v
          [⟨"expect_table_columns_to_match_ordered_list", kwargs⟩] tgt).1.lookup
          "expect_table_columns_to_match_ordered_list" = some r ∧
        (r.success = true ↔ v.dataframe.columns = tgt.columns)) ∧
    (∀ kwargs, kwargs.lookup "value" = some (.str "source") →
      ∃ r, (apply_standard_expectations_to_datasets v
          [⟨"expect_table_row_count_to_equal", kwargs⟩] tgt).1.lookup
          "expect_table_row_count_to_equal" = some r ∧
        (r.success = true ↔ v.dataframe.nrows = tgt.nrows)) := by
  refine ⟨?_, ?_, ?_⟩
  · intro exps k
    rw [apply_standard_expectations_to_datasets, stdLoop_lookup_isSome]
    simp
  · intro kwargs hsent
    have hsupp : ("expect_table_columns_to_match_ordered_list" : String)
        ∈ supported_standard_expectations := by
      simp [supported_standard_expectations]
    rw [apply_standard_singleton v tgt _ kwargs hsupp, lookup_cons_eq, if_pos rfl]
    refine ⟨_, rfl, ?_⟩
    unfold standardResultEntry
    rw [gx_cols_success_sentinel v tgt kwargs hsent]
    by_cases hcc : v.dataframe.columns = tgt.columns
    · simp [hcc]
    · simp [hcc]
  · intro kwargs hsent
    have hsupp : ("expect_table_row_count_to_equal" : String)
        ∈ supported_standard_expectations := by
      simp [supported_standard_expectations]
    rw [apply_standard_singleton v tgt _ kwargs hsupp, lookup_cons_eq, if_pos rfl]
    refine ⟨_, rfl, ?_⟩
    unfold standardResultEntry
    rw [gx_rc_success_sentinel v tgt kwargs hsent]
    by_cases hcc : v.dataframe.nrows = tgt.nrows
    · simp [hcc]
    · simp [hcc]

/-- C9 witness: the configuration of `main.py` — both sentinel-carrying
standard descriptors, one custom descriptor, one unrecognized descriptor —
run against a three-row source and a two-row target. -/
theorem c9_dispatcher_witness :
    ((((apply_standard_expectations_to_datasets
        (⟨⟨3, [⟨"id", [1, 2, 3]⟩, ⟨"value", [100, 200, 300]⟩]⟩⟩ : Validator Int)
        [⟨"expect_table_columns_to_match_ordered_list",
           [("column_list", KwargVal.str "source")]⟩,
         ⟨"expect_table_row_count_to_equal", [("value", KwargVal.str "source")]⟩,
         ⟨"custom_expect_primary_keys_to_match", [("check_duplicates", KwargVal.other)]⟩,
         ⟨"bogus_check", []⟩]
        (⟨2, [⟨"id", [1, 2]⟩, ⟨"value", [100, 250]⟩]⟩ : DataFrame Int)).1.lookup
        "custom_expect_primary_keys_to_match").isSome = true) ↔
      ("custom_expect_primary_keys_to_match" ∈ supported_standard_expectations ∧
        ∃ e ∈ [⟨"expect_table_columns_to_match_ordered_list",
           [("column_list", KwargVal.str "source")]⟩,
         ⟨"expect_table_row_count_to_equal", [("value", KwargVal.str "source")]⟩,
         (⟨"custom_expect_primary_keys_to_match",
           [("check_duplicates", KwargVal.other)]⟩ : Expectation),
         ⟨"bogus_check", []⟩],
          e.expectation_type = "custom_expect_primary_keys_to_match")) :=
  (c9_dispatcher
    (⟨⟨3, [⟨"id", [1, 2, 3]⟩, ⟨"value", [100, 200, 300]⟩]⟩⟩ : Validator Int)
    (⟨2, [⟨"id", [1, 2]⟩, ⟨"value", [100, 250]⟩]⟩ : DataFrame Int)).1
    [⟨"expect_table_columns_to_match_ordered_list",
       [("column_list", KwargVal.str "source")]⟩,
     ⟨"expect_table_row_count_to_equal", [("value", KwargVal.str "source")]⟩,
     ⟨"custom_expect_primary_keys_to_match", [("check_duplicates", KwargVal.other)]⟩,
     ⟨"bogus_check", []⟩]
    "custom_expect_primary_keys_to_match"

end GEV
